import Mathlib

/-!
Verification of the sprite-sheet tools (generator and splitter).

The Python sources are shallowly embedded:
images are modelled as a width, a height and a total pixel function;
pixels are 4-channel records of naturals.  PIL operations used by the
code (crop with zero fill outside the source, paste without a mask,
creation of a transparent canvas) are modelled by `get_image_section`,
`Img.paste` and a constant pixel function.  Fallible operations return
`Except`.  File system and image decoding are outside the embedding;
the splitter's main flow takes the already loaded image (or `none`
for a load failure) and the already parsed metadata file.
-/

/-- A 4-channel pixel: red, green, blue, alpha. -/
structure RGBA where
  r : Nat
  g : Nat
  b : Nat
  a : Nat
deriving DecidableEq

/-- The fully transparent pixel `(0,0,0,0)` used by PIL for the blank
canvas and for crop regions outside the source image. -/
def transparent : RGBA := ⟨0, 0, 0, 0⟩

/-- An in-memory raster image: width, height and a total pixel function.
Only the values at coordinates `x < width`, `y < height` are meaningful;
image comparison is restricted to that region. -/
structure Img where
  width : Nat
  height : Nat
  pix : Nat → Nat → RGBA

/-- Pixel-identity of two images: same dimensions and equal pixels on
the whole in-bounds region. -/
def Img.pixEq (A B : Img) : Prop :=
  A.width = B.width ∧ A.height = B.height ∧
    ∀ x, x < A.width → ∀ y, y < A.height → A.pix x y = B.pix x y

instance (A B : Img) : Decidable (Img.pixEq A B) := by
  unfold Img.pixEq
  infer_instance

/-- Boolean pixel-identity test on a list of images, position by
position (used to state concrete counterexamples). -/
def listPixEqB (as bs : List Img) : Bool :=
  as.length == bs.length &&
    (as.zip bs).all (fun p => decide (Img.pixEq p.1 p.2))

/-- PIL `image.crop((left, top, left+w, top+h))` as used by
`get_image_section` in `sprite_sheet_splitter.py`: the result has the
requested size, pixels beyond the source bounds are zero filled. -/
def get_image_section (image : Img) (position : Nat × Nat) (size : Nat × Nat) : Img :=
  { width := size.1
    height := size.2
    pix := fun i j =>
      if position.1 + i < image.width ∧ position.2 + j < image.height then
        image.pix (position.1 + i) (position.2 + j)
      else transparent }

/-- PIL `dest.paste(img, (x, y))` without a mask: a straight copy of the
pasted image's pixels (alpha included) into the destination rectangle,
clipped to the destination bounds. -/
def Img.paste (dest : Img) (img : Img) (pos : Nat × Nat) : Img :=
  { width := dest.width
    height := dest.height
    pix := fun u v =>
      if pos.1 ≤ u ∧ u < pos.1 + img.width ∧ pos.2 ≤ v ∧ v < pos.2 + img.height ∧
          u < dest.width ∧ v < dest.height then
        img.pix (u - pos.1) (v - pos.2)
      else dest.pix u v }

/-- Failures of `stitch_images`: the unpacking of `zip(*(img.size ...))`
on an empty input list, and the explicit capacity check. -/
inductive StitchError where
  | emptyInput : StitchError
  | capacityError : StitchError
deriving DecidableEq

/-- The metadata record built at the end of `stitch_images`
(`sprite_sheet_generator.py`, lines 91-108). -/
structure Metadata where
  sprite_size : Nat × Nat
  sprite_padding : Nat × Nat
  grid_size : Nat × Nat
  sheet_size : Nat × Nat
deriving DecidableEq

/-- Maximum width over a list of images (`max(widths)` over a non-empty
list in the source; the fold with identity 0 agrees on non-empty lists). -/
def maxWidth (images : List Img) : Nat :=
  (images.map Img.width).foldl Nat.max 0

/-- Maximum height over a list of images. -/
def maxHeight (images : List Img) : Nat :=
  (images.map Img.height).foldl Nat.max 0

/-- The placement offset the stitcher computes for the image at list
index `idx` (`sprite_sheet_generator.py`, lines 78-85):
`row = idx // cols`, `col = idx % cols`,
`x = col * (max_width + padding_x)`, `y = row * (max_height + padding_y)`. -/
def stitch_offset (idx cols max_width max_height : Nat) (padding : Nat × Nat) : Nat × Nat :=
  ((idx % cols) * (max_width + padding.1), (idx / cols) * (max_height + padding.2))

/-- `stitch_images` from `sprite_sheet_generator.py` (lines 43-110).
An empty list makes `widths, heights = zip(*...)` fail before anything
else; then the capacity check runs; then the sheet is composed on a
fully transparent canvas of the computed total size and the metadata
record is built. -/
def stitch_images (images : List Img) (grid_size : Nat × Nat) (padding : Nat × Nat) :
    Except StitchError (Img × Metadata) :=
  match images with
  | [] => .error .emptyInput
  | _ :: _ =>
    let rows := grid_size.1
    let cols := grid_size.2
    if images.length > rows * cols then .error .capacityError
    else
      let max_width := maxWidth images
      let max_height := maxHeight images
      let total_width := cols * max_width + (cols - 1) * padding.1
      let total_height := rows * max_height + (rows - 1) * padding.2
      let base : Img := ⟨total_width, total_height, fun _ _ => transparent⟩
      let stitched := images.enum.foldl
        (fun acc p => acc.paste p.2 (stitch_offset p.1 cols max_width max_height padding))
        base
      .ok (stitched,
        { sprite_size := (max_width, max_height)
          sprite_padding := padding
          grid_size := (rows, cols)
          sheet_size := (stitched.width, stitched.height) })

/-- The values visited by `range(0, extent - sprite + 1, sprite + pad)`
in Python: empty when `extent < sprite` (the stop is then non-positive),
otherwise `0, stride, 2*stride, ...` strictly below `extent - sprite + 1`.
The `stride = 0` guard mirrors that Python `range` rejects a zero step;
it is unreachable for positive sprite dimensions. -/
def splitStops (extent sprite pad : Nat) : List Nat :=
  if extent < sprite then []
  else if sprite + pad = 0 then []
  else (List.range ((extent - sprite) / (sprite + pad) + 1)).map (· * (sprite + pad))

/-- The top-left corners of the crop boxes produced by the two nested
loops of `split_sprite_sheet` (`sprite_sheet_splitter.py`, lines
100-106), in production order.  The outer loop variable is called `y`
and strides by `sprite_width + padding_x` over the sheet WIDTH; the
inner variable is called `x` and strides by `sprite_height + padding_y`
over the sheet HEIGHT; each iteration crops at position `(x, y)`. -/
def split_cells (image : Img) (size : Nat × Nat) (padding : Nat × Nat) : List (Nat × Nat) :=
  (splitStops image.width size.1 padding.1).flatMap
    (fun y => (splitStops image.height size.2 padding.2).map (fun x => (x, y)))

/-- `split_sprite_sheet` from `sprite_sheet_splitter.py` (lines 93-108):
one crop of the requested size per visited cell position. -/
def split_sprite_sheet (image : Img) (size : Nat × Nat) (padding : Nat × Nat) : List Img :=
  (split_cells image size padding).map (fun pos => get_image_section image pos size)

/-- The alpha samples of an image in the row-major order of PIL
`getchannel("A").getdata()`. -/
def alphaValues (image : Img) : List Nat :=
  (List.range image.height).flatMap
    (fun y => (List.range image.width).map (fun x => (image.pix x y).a))

/-- `image_is_blank` from `sprite_sheet_splitter.py` (lines 110-123):
`all(alpha == 0 for alpha in alpha_values)`. -/
def image_is_blank (image : Img) : Bool :=
  (alphaValues image).all (fun alpha => alpha == 0)

/-- Separator characters of the regular expression class `[\s_-]` used
on label stems (Python `\s` on ASCII text, plus underscore and hyphen). -/
def isSepChar (c : Char) : Bool :=
  c == ' ' || c == '\t' || c == '\n' || c == '\x0d' || c == '\x0b' || c == '\x0c' || c == '_' || c == '-'

/-- The effect of `re.sub(r'^\d+[\s_-]*', '', stem)` on the character
list of the stem: the anchored pattern matches exactly when the stem
starts with a digit, and then greedily removes the maximal run of
digits followed by the maximal run of separator characters. -/
def stripLeadingIndex (l : List Char) : List Char :=
  match l with
  | [] => []
  | c :: _ =>
    if c.isDigit then (l.dropWhile Char.isDigit).dropWhile isSepChar
    else l

/-- Label derivation in `main` of `sprite_sheet_generator.py` (lines
151-156): apply the substitution to the stem and normalize an empty
result to `None`. -/
def derive_label (stem : List Char) : Option (List Char) :=
  let processed_name := stripLeadingIndex stem
  if processed_name.isEmpty then none else some processed_name

/-- `file_name` computed for sprite index `i` in the saving loop of the
splitter's `main` (lines 214-218): label `labels[i]` is used when it
exists, is not `None` and is non-empty, joined to `str(i+1)` by the
separator; otherwise `str(i+1)` alone. -/
def sprite_file_name (i : Nat) (labels : List (Option String)) (sep : String) : String :=
  match labels.get? i with
  | some (some l) =>
    if l.length > 0 then String.intercalate sep [Nat.repr (i + 1), l]
    else Nat.repr (i + 1)
  | _ => Nat.repr (i + 1)

/-- The saving loop of the splitter's `main` (lines 210-225), started at
enumeration index `i`: a sprite is skipped when blank filtering is on
and the sprite is blank, otherwise the pair of its output file name
(with the `.png` suffix of the save path) and its image is emitted. -/
def saveLoopFrom (labels : List (Option String)) (sep : String) (disinclude : Bool) :
    Nat → List Img → List (String × Img)
  | _, [] => []
  | i, s :: rest =>
    if disinclude && image_is_blank s then saveLoopFrom labels sep disinclude (i + 1) rest
    else (sprite_file_name i labels sep ++ ".png", s) :: saveLoopFrom labels sep disinclude (i + 1) rest

/-- Failures of `process_arguments` that are inside the embedding (the
label-file and sheet-file existence checks are file-system queries and
stay outside; the metadata argument stands for the parsed metadata file
when it exists). -/
inductive ProcError where
  | missingSpriteSize : ProcError
deriving DecidableEq

/-- The command-line arguments of the splitter that the core resolution
logic consumes.  `label_lines` is the stripped line list of the label
file when one was supplied. -/
structure SplitArgs where
  sprite_size : Option (Nat × Nat)
  sprite_padding : Option (Nat × Nat)
  label_lines : Option (List String)
  ignore_metadata : Bool
  clear_directory : Bool
  disinclude_blank_sprites : Bool
  file_name_separator : String

/-- The parsed metadata file: the JSON written by the generator always
holds `sprite_size` and `sprite_padding`; `labels` is guarded by a
membership check in the source, so it is optional, and a JSON `null`
entry is an absent label. -/
structure MetaFile where
  sprite_size : Nat × Nat
  sprite_padding : Nat × Nat
  labels : Option (List (Option String))

/-- The effective parameters after `process_arguments`. -/
structure ResolvedArgs where
  sprite_size : Nat × Nat
  sprite_padding : Nat × Nat
  labels : List (Option String)

/-- `process_arguments` from `sprite_sheet_splitter.py` (lines 125-167):
labels from the label file; then, unless metadata is ignored or absent,
each of `sprite_size`, `sprite_padding` and the labels is taken from the
metadata when not supplied explicitly; a still-missing sprite size is an
error; a still-missing padding defaults to `(0,0)`. -/
def process_arguments (args : SplitArgs) (metadata_file : Option MetaFile) :
    Except ProcError ResolvedArgs :=
  let labels : List (Option String) :=
    match args.label_lines with
    | some lines => lines.map some
    | none => []
  let merged :
      Option (Nat × Nat) × Option (Nat × Nat) × List (Option String) :=
    match (if args.ignore_metadata then none else metadata_file) with
    | some data =>
      (args.sprite_size.orElse (fun _ => some data.sprite_size),
       args.sprite_padding.orElse (fun _ => some data.sprite_padding),
       if args.label_lines.isNone then
         match data.labels with
         | some ls => ls
         | none => labels
       else labels)
    | none => (args.sprite_size, args.sprite_padding, labels)
  match merged.1 with
  | none => .error .missingSpriteSize
  | some sz =>
    .ok { sprite_size := sz
          sprite_padding := merged.2.1.getD (0, 0)
          labels := merged.2.2 }

/-- How a run of the splitter's `main` ended. -/
inductive SplitOutcome where
  | argError : ProcError → SplitOutcome
  | loadError : SplitOutcome
  | sheetTooSmall : SplitOutcome
  | done : SplitOutcome
deriving DecidableEq

/-- The observable effects of one run of the splitter's `main`: the
outcome, whether the output directory was cleared and created, and the
saved files in order (name with suffix, image). -/
structure SplitRun where
  outcome : SplitOutcome
  cleared_directory : Bool
  created_directory : Bool
  saved : List (String × Img)

/-- `main` from `sprite_sheet_splitter.py` (lines 170-231): argument
resolution, image load, the sheet-size check, then directory clearing
and creation followed by splitting and the saving loop.  A `none` input
image stands for a load failure. -/
def split_main (args : SplitArgs) (metadata_file : Option MetaFile) (input_image : Option Img) :
    SplitRun :=
  match process_arguments args metadata_file with
  | .error e => ⟨.argError e, false, false, []⟩
  | .ok r =>
    match input_image with
    | none => ⟨.loadError, false, false, []⟩
    | some image =>
      if r.sprite_size.1 ≤ image.width ∧ r.sprite_size.2 ≤ image.height then
        let sprites := split_sprite_sheet image r.sprite_size r.sprite_padding
        ⟨.done, args.clear_directory, true,
          saveLoopFrom r.labels args.file_name_separator args.disinclude_blank_sprites 0 sprites⟩
      else ⟨.sheetTooSmall, false, false, []⟩

/-- The sheet dimensions of a successful stitch result. -/
def sheetDims : Except StitchError (Img × Metadata) → Option (Nat × Nat)
  | .ok (sheet, _) => some (sheet.width, sheet.height)
  | .error _ => none

/-- The effective sprite size of a successful argument resolution. -/
def resolvedSize : Except ProcError ResolvedArgs → Option (Nat × Nat)
  | .ok r => some r.sprite_size
  | .error _ => none

/-- The effective padding of a successful argument resolution. -/
def resolvedPadding : Except ProcError ResolvedArgs → Option (Nat × Nat)
  | .ok r => some r.sprite_padding
  | .error _ => none

/-- Whether an `Except` result is a success. -/
def exceptIsOk : Except StitchError (Img × Metadata) → Bool
  | .ok _ => true
  | .error _ => false

/-! ### Concrete inputs for the refuted claims -/

/-- A 1×1 opaque sprite with pixel `(9,9,9,255)`. -/
def spriteA : Img := ⟨1, 1, fun _ _ => ⟨9, 9, 9, 255⟩⟩

/-- A 1×1 opaque sprite with pixel `(7,7,7,255)`. -/
def spriteB : Img := ⟨1, 1, fun _ _ => ⟨7, 7, 7, 255⟩⟩

/-- Stitch `[spriteA, spriteB]` on a 1-row, 2-column grid with no
padding, then split the sheet back with the descriptor's own
`sprite_size` and `sprite_padding`. -/
def roundTripOut : List Img :=
  match stitch_images [spriteA, spriteB] (1, 2) (0, 0) with
  | .ok (sheet, md) => split_sprite_sheet sheet md.sprite_size md.sprite_padding
  | .error _ => []

/-- A 2-wide, 1-tall sheet (the shape stitched from two 1×1 sprites on
a 1×2 grid); its pixel content is irrelevant to the cell geometry. -/
def flatSheet : Img := ⟨2, 1, fun _ _ => transparent⟩

/-- Claim C1: splitting the sheet stitched from a non-empty list of
equally sized sprites (with the descriptor's sprite size and padding)
is claimed to reproduce the list pixel-identically in order.  The code
refutes this: for two opaque 1×1 sprites on a 1×2 grid the stitch
succeeds and the split returns two images, but the second returned
image is an out-of-bounds fully transparent crop rather than the second
sprite, because the splitter's loops stride the width with the
horizontal stride to produce vertical coordinates and vice versa. -/
theorem C1_roundtrip_counterexample :
    exceptIsOk (stitch_images [spriteA, spriteB] (1, 2) (0, 0)) = true ∧
    roundTripOut.length = 2 ∧
    listPixEqB roundTripOut [spriteA, spriteB] = false := by
  decide

/-- Claim C2: the splitter's crop rectangle for produced index `i` is
claimed to equal the stitcher's placement rectangle for input index
`i`, with top-left `((i % cols) * (w + ph), (i / cols) * (h + pv))`.
The code refutes this: on a 2×1 sheet of 1×1 cells with no padding
(`cols = 2`), the splitter's second cell is at `(0, 1)` while the
stitcher places the second input at `(1, 0)` — the two directions do
not use the same formula, the splitter's axes are transposed. -/
theorem C2_same_formula_counterexample :
    (split_cells flatSheet (1, 1) (0, 0))[1]? = some (0, 1) ∧
    stitch_offset 1 2 1 1 (0, 0) = (1, 0) ∧
    ¬ (split_cells flatSheet (1, 1) (0, 0))[1]? = some (stitch_offset 1 2 1 1 (0, 0)) := by
  decide

/-- Claim C4: stitching raises the capacity error exactly when the
image count exceeds `rows * cols`, and then returns no sheet and no
descriptor. -/
theorem C4_capacity_error (images : List Img) (rows cols px py : Nat) :
    (stitch_images images (rows, cols) (px, py) = .error .capacityError ↔
      images.length > rows * cols) ∧
    (images.length > rows * cols →
      ∀ sheet md, stitch_images images (rows, cols) (px, py) ≠ .ok (sheet, md)) := by
  cases images with
  | nil => simp [stitch_images]
  | cons a l =>
    by_cases h : (a :: l).length > rows * cols
    · refine ⟨⟨fun _ => h, fun _ => ?_⟩, fun _ sheet md heq => ?_⟩
      · show stitch_images (a :: l) (rows, cols) (px, py) = .error .capacityError
        simp only [stitch_images]
        rw [if_pos h]
      · simp only [stitch_images] at heq
        rw [if_pos h] at heq
        exact Except.noConfusion heq
    · refine ⟨⟨fun heq => ?_, fun hgt => absurd hgt h⟩, fun hgt => absurd hgt h⟩
      simp only [stitch_images] at heq
      rw [if_neg h] at heq
      exact Except.noConfusion heq

/-- Pasting never changes the canvas dimensions, so neither does the
stitcher's placement fold. -/
theorem foldl_paste_width (l : List (Nat × Img)) (acc : Img) (cols mw mh : Nat)
    (pad : Nat × Nat) :
    (l.foldl (fun a p => a.paste p.2 (stitch_offset p.1 cols mw mh pad)) acc).width
      = acc.width := by
  induction l generalizing acc with
  | nil => rfl
  | cons p t ih => simpa using ih (acc.paste p.2 (stitch_offset p.1 cols mw mh pad))

/-- Height analogue of `foldl_paste_width`. -/
theorem foldl_paste_height (l : List (Nat × Img)) (acc : Img) (cols mw mh : Nat)
    (pad : Nat × Nat) :
    (l.foldl (fun a p => a.paste p.2 (stitch_offset p.1 cols mw mh pad)) acc).height
      = acc.height := by
  induction l generalizing acc with
  | nil => rfl
  | cons p t ih => simpa using ih (acc.paste p.2 (stitch_offset p.1 cols mw mh pad))

/-- Claim C3: for a non-empty sprite list and a grid with enough cells,
the stitched sheet is `cols * maxWidth + (cols - 1) * px` wide and
`rows * maxHeight + (rows - 1) * py` tall. -/
theorem C3_sheet_dimensions (images : List Img) (rows cols px py : Nat)
    (hne : images ≠ []) (hcap : images.length ≤ rows * cols) :
    sheetDims (stitch_images images (rows, cols) (px, py)) =
      some (cols * maxWidth images + (cols - 1) * px,
            rows * maxHeight images + (rows - 1) * py) := by
  cases images with
  | nil => exact absurd rfl hne
  | cons a l =>
    have h : ¬((a :: l).length > rows * cols) := Nat.not_lt.mpr hcap
    simp only [stitch_images]
    rw [if_neg h]
    simp only [sheetDims]
    rw [foldl_paste_width, foldl_paste_height]

/-- Witness for C3 at the spec's concrete scenario A: four 50×50
sprites on a 2×2 grid give a 100×100 sheet, and on a 1×4 grid a 200×50
sheet (padding 0 in both). -/
def sprite50 : Img := ⟨50, 50, fun _ _ => ⟨1, 2, 3, 255⟩⟩

/-- Four identical 50×50 sprites. -/
def fourSprites : List Img := [sprite50, sprite50, sprite50, sprite50]

/-- Claim C3, witness: scenario A evaluated. -/
theorem C3_sheet_dimensions_witness :
    sheetDims (stitch_images fourSprites (2, 2) (0, 0)) = some (100, 100) ∧
    sheetDims (stitch_images fourSprites (1, 4) (0, 0)) = some (200, 50) := by
  constructor
  · exact (C3_sheet_dimensions fourSprites 2 2 0 0 (by simp [fourSprites]) (by decide)).trans
      (by decide)
  · exact (C3_sheet_dimensions fourSprites 1 4 0 0 (by simp [fourSprites]) (by decide)).trans
      (by decide)

/-- Claim C5: with resolved parameters, the splitter's main flow fails
with the sheet-too-small outcome exactly when the sheet's width is
below the sprite width or its height below the sprite height, and then
saves no sprite files. -/
theorem C5_sheet_too_small (args : SplitArgs) (md : Option MetaFile) (image : Img)
    (r : ResolvedArgs) (hok : process_arguments args md = .ok r) :
    ((split_main args md (some image)).outcome = .sheetTooSmall ↔
      image.width < r.sprite_size.1 ∨ image.height < r.sprite_size.2) ∧
    ((split_main args md (some image)).outcome = .sheetTooSmall →
      (split_main args md (some image)).saved = []) := by
  unfold split_main
  rw [hok]
  dsimp only
  by_cases hc : r.sprite_size.1 ≤ image.width ∧ r.sprite_size.2 ≤ image.height
  · rw [if_pos hc]
    refine ⟨⟨fun hout => absurd hout (by simp), fun hlt => ?_⟩, fun hout => absurd hout (by simp)⟩
    exact absurd hlt (by omega)
  · rw [if_neg hc]
    exact ⟨⟨fun _ => by omega, fun _ => rfl⟩, fun _ => rfl⟩

/-- Concrete arguments for the C5 witness: explicit 2×2 sprite size,
nothing else supplied. -/
def argsC5 : SplitArgs := ⟨some (2, 2), none, none, false, false, false, " "⟩

/-- The resolution of `argsC5` with no metadata. -/
def resolvedC5 : ResolvedArgs := ⟨(2, 2), (0, 0), []⟩

/-- A 1×1 opaque image, smaller than a 2×2 sprite. -/
def tinyImg : Img := ⟨1, 1, fun _ _ => ⟨0, 0, 0, 255⟩⟩

/-- Claim C5, witness: splitting a 1×1 sheet with sprite size 2×2 ends
in the sheet-too-small outcome and saves nothing. -/
theorem C5_sheet_too_small_witness :
    (split_main argsC5 none (some tinyImg)).outcome = .sheetTooSmall ∧
    (split_main argsC5 none (some tinyImg)).saved = [] := by
  have h := C5_sheet_too_small argsC5 none tinyImg resolvedC5 rfl
  exact ⟨h.1.mpr (by decide), h.2 (h.1.mpr (by decide))⟩

/-- Alpha samples are exactly the in-bounds alpha channel values. -/
theorem mem_alphaValues (image : Img) (v : Nat) :
    v ∈ alphaValues image ↔
      ∃ x, x < image.width ∧ ∃ y, y < image.height ∧ (image.pix x y).a = v := by
  simp only [alphaValues, List.mem_flatMap, List.mem_map, List.mem_range]
  constructor
  · rintro ⟨y, hy, x, hx, rfl⟩
    exact ⟨x, hx, y, hy, rfl⟩
  · rintro ⟨x, hx, y, hy, rfl⟩
    exact ⟨y, hy, x, hx, rfl⟩

/-- Claim C6: an image is blank exactly when every in-bounds pixel has
alpha 0; consequently an image whose every pixel is fully opaque is
never blank when it has at least one pixel. -/
theorem C6_blank_iff (image : Img) :
    (image_is_blank image = true ↔
      ∀ x, x < image.width → ∀ y, y < image.height → (image.pix x y).a = 0) ∧
    (0 < image.width → 0 < image.height →
      (∀ x y, (image.pix x y).a = 255) → image_is_blank image = false) := by
  have hiff : image_is_blank image = true ↔
      ∀ x, x < image.width → ∀ y, y < image.height → (image.pix x y).a = 0 := by
    rw [image_is_blank, List.all_eq_true]
    constructor
    · intro H x hx y hy
      have := H _ ((mem_alphaValues image _).mpr ⟨x, hx, y, hy, rfl⟩)
      simpa using this
    · intro H v hv
      obtain ⟨x, hx, y, hy, rfl⟩ := (mem_alphaValues image v).mp hv
      simpa using H x hx y hy
  refine ⟨hiff, fun hw hh hop => ?_⟩
  cases hb : image_is_blank image with
  | false => rfl
  | true =>
    have h0 := (hiff.mp hb) 0 hw 0 hh
    rw [hop 0 0] at h0
    exact absurd h0 (by decide)

/-- Whether a predicate rejects the head of a list (vacuously true for
the empty list): the shape in which run-maximality enters the label
theorem. -/
def headSat (p : Char → Bool) : List Char → Bool
  | [] => true
  | c :: _ => !(p c)

/-- Dropping while a predicate holds skips a first block on which it
holds everywhere. -/
theorem dropWhile_append_all (p : Char → Bool) (xs ys : List Char)
    (h : ∀ c ∈ xs, p c = true) :
    List.dropWhile p (xs ++ ys) = List.dropWhile p ys := by
  induction xs with
  | nil => rfl
  | cons c cs ih =>
    have hc : p c = true := h c (by simp)
    simp only [List.cons_append, List.dropWhile_cons, hc, if_true]
    exact ih (fun d hd => h d (by simp [hd]))

/-- Dropping while a predicate holds is the identity when the predicate
rejects the head. -/
theorem dropWhile_headSat (p : Char → Bool) (ys : List Char)
    (h : headSat p ys = true) :
    List.dropWhile p ys = ys := by
  cases ys with
  | nil => rfl
  | cons c cs =>
    have hc : p c = false := by simpa [headSat] using h
    simp [List.dropWhile_cons, hc]

/-- Claim C7: on a stem decomposed as a (maximal) leading digit run
`d`, a (maximal) following separator run `s` and the remainder `r`, the
derived label is the remainder, and an empty remainder means no label.
When the stem does not start with a digit (`d = []`, hence `s = []`)
nothing is removed. -/
theorem C7_label_derivation (d s r : List Char)
    (hd : ∀ c ∈ d, c.isDigit = true)
    (hs : ∀ c ∈ s, isSepChar c = true)
    (hds : headSat Char.isDigit (s ++ r) = true)
    (hde : d = [] → s = [])
    (hrs : d ≠ [] → headSat isSepChar r = true) :
    (r = [] → derive_label (d ++ s ++ r) = none) ∧
    (r ≠ [] → derive_label (d ++ s ++ r) = some r) := by
  have hstrip : stripLeadingIndex (d ++ s ++ r) = r := by
    rw [List.append_assoc]
    cases d with
    | nil =>
      obtain rfl : s = [] := hde rfl
      simp only [List.nil_append]
      cases r with
      | nil => rfl
      | cons c cs =>
        have hc : c.isDigit = false := by simpa [headSat] using hds
        simp [stripLeadingIndex, hc]
    | cons c cs =>
      have hc : c.isDigit = true := hd c (by simp)
      show stripLeadingIndex ((c :: cs) ++ (s ++ r)) = r
      simp only [List.cons_append, stripLeadingIndex, hc, if_true]
      rw [show c :: (cs ++ (s ++ r)) = (c :: cs) ++ (s ++ r) from rfl]
      rw [dropWhile_append_all Char.isDigit (c :: cs) (s ++ r) hd]
      rw [dropWhile_headSat Char.isDigit (s ++ r) hds]
      rw [dropWhile_append_all isSepChar s r hs]
      exact dropWhile_headSat isSepChar r (hrs (by simp))
  constructor
  · intro hr
    rw [derive_label, hstrip, hr]
    rfl
  · intro hr
    rw [derive_label, hstrip]
    cases r with
    | nil => exact absurd rfl hr
    | cons c cs => rfl

/-- Claim C7, witness: the four examples of the spec evaluated through
the theorem — "03_hero" gives "hero", "hero" stays "hero", "7" gives no
label, "12 - walk" gives "walk". -/
theorem C7_label_derivation_witness :
    derive_label (['0', '3'] ++ ['_'] ++ ['h', 'e', 'r', 'o']) = some ['h', 'e', 'r', 'o'] ∧
    derive_label (([] : List Char) ++ [] ++ ['h', 'e', 'r', 'o']) = some ['h', 'e', 'r', 'o'] ∧
    derive_label (['7'] ++ [] ++ []) = none ∧
    derive_label (['1', '2'] ++ [' ', '-', ' '] ++ ['w', 'a', 'l', 'k']) = some ['w', 'a', 'l', 'k'] :=
  ⟨(C7_label_derivation ['0', '3'] ['_'] ['h', 'e', 'r', 'o']
      (by decide) (by decide) (by decide) (by decide) (by decide)).2 (by decide),
   (C7_label_derivation [] [] ['h', 'e', 'r', 'o']
      (by decide) (by decide) (by decide) (by decide) (by decide)).2 (by decide),
   (C7_label_derivation ['7'] [] []
      (by decide) (by decide) (by decide) (by decide) (by decide)).1 rfl,
   (C7_label_derivation ['1', '2'] [' ', '-', ' '] ['w', 'a', 'l', 'k']
      (by decide) (by decide) (by decide) (by decide) (by decide)).2 (by decide)⟩

/-- The saving loop started at index `i` keeps, of the enumeration of
the remaining sprites from `i`, exactly the non-blank ones. -/
theorem saveLoopFrom_enumFrom (labels : List (Option String)) (sep : String)
    (sprites : List Img) (i : Nat) :
    saveLoopFrom labels sep true i sprites =
      ((sprites.enumFrom i).filter (fun p => !image_is_blank p.2)).map
        (fun p => (sprite_file_name p.1 labels sep ++ ".png", p.2)) := by
  induction sprites generalizing i with
  | nil => rfl
  | cons s rest ih =>
    cases hb : image_is_blank s with
    | true => simp [saveLoopFrom, hb, List.enumFrom, List.filter_cons, ih]
    | false => simp [saveLoopFrom, hb, List.enumFrom, List.filter_cons, ih]

/-- Claim C9: with blank filtering enabled, the saving loop saves
exactly the non-blank sprites in order, each under the file name built
from its own original extraction index (label lookup and numbering both
use that index, not a post-filter compacted one). -/
theorem C9_blank_filtering (sprites : List Img) (labels : List (Option String))
    (sep : String) :
    saveLoopFrom labels sep true 0 sprites =
      (sprites.enum.filter (fun p => !image_is_blank p.2)).map
        (fun p => (sprite_file_name p.1 labels sep ++ ".png", p.2)) :=
  saveLoopFrom_enumFrom labels sep sprites 0

/-- Claim C8: explicit sprite size and padding always win; an absent
one falls back to the metadata file when it is present and not ignored;
no sprite size from either source is the missing-size error, raised
with no directory cleared or created and no file saved; an absent
padding with no metadata falls back to `(0, 0)` (observed on any
successful resolution). -/
theorem C8_parameter_resolution (args : SplitArgs) (md : Option MetaFile) :
    (∀ sz, args.sprite_size = some sz →
      resolvedSize (process_arguments args md) = some sz) ∧
    (args.sprite_size = none →
      ∀ data, (if args.ignore_metadata then none else md) = some data →
        resolvedSize (process_arguments args md) = some data.sprite_size) ∧
    (args.sprite_size = none → (if args.ignore_metadata then none else md) = none →
      process_arguments args md = .error .missingSpriteSize ∧
      ∀ img, (split_main args md img).saved = [] ∧
        (split_main args md img).cleared_directory = false ∧
        (split_main args md img).created_directory = false) ∧
    (∀ pd, args.sprite_padding = some pd →
      ∀ sz, resolvedSize (process_arguments args md) = some sz →
        resolvedPadding (process_arguments args md) = some pd) ∧
    (args.sprite_padding = none →
      ∀ data, (if args.ignore_metadata then none else md) = some data →
        resolvedPadding (process_arguments args md) = some data.sprite_padding) ∧
    (args.sprite_padding = none → (if args.ignore_metadata then none else md) = none →
      ∀ sz, resolvedSize (process_arguments args md) = some sz →
        resolvedPadding (process_arguments args md) = some (0, 0)) := by
  obtain ⟨asz, apd, alab, aig, acd, adb, asep⟩ := args
  cases aig <;> cases md <;> cases asz <;> cases apd <;>
    simp [process_arguments, split_main, resolvedSize, resolvedPadding, Option.orElse]

/-- Claim C10: stitching an empty image list always fails, for every
grid and padding, returning no sheet and no descriptor, and the failure
is not the capacity error (the `zip` unpacking fails first). -/
theorem C10_empty_input_fails (rows cols px py : Nat) :
    stitch_images [] (rows, cols) (px, py) = .error .emptyInput ∧
    (∀ sheet md, stitch_images [] (rows, cols) (px, py) ≠ .ok (sheet, md)) ∧
    stitch_images [] (rows, cols) (px, py) ≠ .error .capacityError := by
  refine ⟨rfl, ?_, ?_⟩
  · intro sheet md h
    simp [stitch_images] at h
  · intro h
    simp [stitch_images] at h
